import Mathlib

/-!
Verification development for the LS-8 CPU simulator
(files `ls8/cpu.py` and `ls8/cpu_additions.py`).

The two Python classes are embedded shallowly: CPU state is a structure,
each handler is a function returning `Except Err CPU`, and Python list
indexing (including negative-index wraparound and `IndexError`) is
modelled by `pyIdx` / `pyGet` / `pySet`.  Python's bitwise `x & 0b111`
and `x & 0b11111111` on arbitrary integers coincide with `x % 8` and
`x % 256` (Euclidean remainder, which Lean's `Int.emod` computes for a
positive modulus), and are rendered that way.
-/

set_option linter.unusedVariables false
set_option maxRecDepth 8000

/-- Runtime failures of the embedded Python code. -/
inductive Err where
  | indexError
  | keyError
  | attributeError
  | unsupportedAlu
  deriving DecidableEq

instance {ε α : Type} [DecidableEq ε] [DecidableEq α] : DecidableEq (Except ε α)
  | .error a, .error b =>
    match decEq a b with
    | isTrue h => isTrue (h ▸ rfl)
    | isFalse h => isFalse fun hh => h (Except.error.inj hh)
  | .error _, .ok _ => isFalse fun h => Except.noConfusion h
  | .ok _, .error _ => isFalse fun h => Except.noConfusion h
  | .ok a, .ok b =>
    match decEq a b with
    | isTrue h => isTrue (h ▸ rfl)
    | isFalse h => isFalse fun hh => h (Except.ok.inj hh)

/-- Python list index resolution on a list of length `n`: a non-negative
index must be `< n`; a negative index is offset by `n` and must land at
`≥ 0`; anything else raises `IndexError` (`none`). -/
def pyIdx (n : Nat) (i : Int) : Option Nat :=
  if 0 ≤ i then
    if i < (n : Int) then some i.toNat else none
  else
    if 0 ≤ i + (n : Int) then some (i + (n : Int)).toNat else none

/-- Python `l[i]` for reading. -/
def pyGet (l : List Int) (i : Int) : Option Int :=
  (pyIdx l.length i).bind fun j => l.get? j

/-- Python `l[i] = v`. -/
def pySet (l : List Int) (i : Int) (v : Int) : Option (List Int) :=
  (pyIdx l.length i).map fun j => l.set j v

namespace cpu_additions

/-- State of `CPU` from `ls8/cpu_additions.py`.  `flag` is `none` until
the first CMP assigns `self.flag` (reading it before that raises
`AttributeError`). -/
structure CPU where
  ram : List Int
  reg : List Int
  pc : Int
  sp : Int
  running : Bool
  flag : Option Int
  deriving DecidableEq

/-- `CPU.__init__`. -/
def CPU.init : CPU :=
  { ram := List.replicate 256 0
    reg := List.replicate 8 0
    pc := 0
    sp := 7
    running := true
    flag := none }

/-- `CPU.ram_read`. -/
def ram_read (s : CPU) (address : Int) : Except Err Int :=
  match pyGet s.ram address with
  | some v => .ok v
  | none => .error .indexError

/-- `CPU.ram_write`. -/
def ram_write (s : CPU) (value address : Int) : Except Err CPU :=
  match pySet s.ram address value with
  | some m => .ok { s with ram := m }
  | none => .error .indexError

/-- A read `self.reg[i]`. -/
def reg_read (s : CPU) (i : Int) : Except Err Int :=
  match pyGet s.reg i with
  | some v => .ok v
  | none => .error .indexError

/-- A write `self.reg[i] = v`. -/
def reg_write (s : CPU) (i v : Int) : Except Err CPU :=
  match pySet s.reg i v with
  | some l => .ok { s with reg := l }
  | none => .error .indexError

/-- `CPU.alu`.  Both register indices are masked with `& OOI` (= `% 8`);
`& LIM` (= `% 256`) is applied only by INC and DEC, as in the source. -/
def alu (s : CPU) (op : String) (reg_a reg_b : Int) : Except Err CPU :=
  let ra : Int := reg_a % 8
  let rb : Int := reg_b % 8
  if op = "ADD" then do
    let x ← reg_read s ra
    let y ← reg_read s rb
    reg_write s ra (x + y)
  else if op = "SUB" then do
    let x ← reg_read s ra
    let y ← reg_read s rb
    reg_write s ra (x - y)
  else if op = "MUL" then do
    let x ← reg_read s ra
    let y ← reg_read s rb
    reg_write s ra (x * y)
  else if op = "INC" then do
    let x ← reg_read s ra
    reg_write s ra ((x + 1) % 256)
  else if op = "DEC" then do
    let x ← reg_read s ra
    reg_write s ra ((x - 1) % 256)
  else if op = "CMP" then do
    let x ← reg_read s ra
    let y ← reg_read s rb
    if x = y then .ok { s with flag := some 1 }
    else if x < y then .ok { s with flag := some 4 }
    else .ok { s with flag := some 2 }
  else .error .unsupportedAlu

/-- `CPU.ldi`: index masked by `& OOI`, value by `& LIM`. -/
def ldi (s : CPU) (operand_a operand_b : Int) : Except Err CPU := do
  let s ← reg_write s (operand_a % 8) (operand_b % 256)
  .ok { s with pc := s.pc + 3 }

/-- `CPU.print` (PRN): reads `self.reg[operand_a]` with no masking. -/
def prn (s : CPU) (operand_a operand_b : Int) : Except Err CPU := do
  let _ ← reg_read s operand_a
  .ok { s with pc := s.pc + 2 }

/-- `CPU.halt`. -/
def halt (s : CPU) (operand_a operand_b : Int) : Except Err CPU :=
  .ok { s with running := false }

/-- `CPU.add`. -/
def add (s : CPU) (operand_a operand_b : Int) : Except Err CPU := do
  let s ← alu s "ADD" operand_a operand_b
  .ok { s with pc := s.pc + 3 }

/-- `CPU.subtract`. -/
def subtract (s : CPU) (operand_a operand_b : Int) : Except Err CPU := do
  let s ← alu s "SUB" operand_a operand_b
  .ok { s with pc := s.pc + 3 }

/-- `CPU.multiply`. -/
def multiply (s : CPU) (operand_a operand_b : Int) : Except Err CPU := do
  let s ← alu s "MUL" operand_a operand_b
  .ok { s with pc := s.pc + 3 }

/-- `CPU.compare`. -/
def compare (s : CPU) (operand_a operand_b : Int) : Except Err CPU := do
  let s ← alu s "CMP" operand_a operand_b
  .ok { s with pc := s.pc + 3 }

/-- `CPU.jump` (JMP): `self.pc = self.reg[operand_a]`, no masking. -/
def jump (s : CPU) (operand_a operand_b : Int) : Except Err CPU := do
  let v ← reg_read s operand_a
  .ok { s with pc := v }

/-- `CPU.jump_if_equal` (JEQ).  Reading an unassigned `self.flag`
raises `AttributeError`. -/
def jump_if_equal (s : CPU) (operand_a operand_b : Int) : Except Err CPU :=
  match s.flag with
  | none => .error .attributeError
  | some f =>
    if f = 1 then do
      let v ← reg_read s operand_a
      .ok { s with pc := v }
    else .ok { s with pc := s.pc + 2 }

/-- `CPU.jump_if_not_equal` (JNE). -/
def jump_if_not_equal (s : CPU) (operand_a operand_b : Int) : Except Err CPU :=
  match s.flag with
  | none => .error .attributeError
  | some f =>
    if f ≠ 1 then do
      let v ← reg_read s operand_a
      .ok { s with pc := v }
    else .ok { s with pc := s.pc + 2 }

/-- `CPU.push`: decrement `reg[sp]`, then `ram_write(reg[operand_a],
reg[sp])` — the argument reads happen after the decrement. -/
def push (s : CPU) (operand_a operand_b : Int) : Except Err CPU := do
  let sp0 ← reg_read s s.sp
  let s ← reg_write s s.sp (sp0 - 1)
  let v ← reg_read s operand_a
  let sp1 ← reg_read s s.sp
  let s ← ram_write s v sp1
  .ok { s with pc := s.pc + 2 }

/-- `CPU.pop`: `reg[operand_a] = ram[reg[sp]]`, then increment
`reg[sp]`. -/
def pop (s : CPU) (operand_a operand_b : Int) : Except Err CPU := do
  let sp0 ← reg_read s s.sp
  let v ← ram_read s sp0
  let s ← reg_write s operand_a v
  let sp1 ← reg_read s s.sp
  let s ← reg_write s s.sp (sp1 + 1)
  .ok { s with pc := s.pc + 2 }

/-- `CPU.call`: decrement `reg[sp]`, write `pc + 2` at the new
`reg[sp]`, then `pc = reg[operand_a]` (read after the decrement). -/
def call (s : CPU) (operand_a operand_b : Int) : Except Err CPU := do
  let sp0 ← reg_read s s.sp
  let s ← reg_write s s.sp (sp0 - 1)
  let sp1 ← reg_read s s.sp
  let s ← ram_write s (s.pc + 2) sp1
  let v ← reg_read s operand_a
  .ok { s with pc := v }

/-- `CPU._return` (RET): `pc = ram[reg[sp]]`, then increment
`reg[sp]`. -/
def ret (s : CPU) (operand_a operand_b : Int) : Except Err CPU := do
  let sp0 ← reg_read s s.sp
  let v ← ram_read s sp0
  let s1 : CPU := { s with pc := v }
  let sp1 ← reg_read s1 s1.sp
  reg_write s1 s1.sp (sp1 + 1)

/-- The dispatch dictionary built in `CPU.__init__` (`self.branchtable`),
keyed by the numeric opcode constants.  A missing key raises `KeyError`. -/
def branchtable (ir : Int) : Option (CPU → Int → Int → Except Err CPU) :=
  if ir = 1 then some halt                      -- HLT  = 0b00000001
  else if ir = 130 then some ldi                -- LDI  = 0b10000010
  else if ir = 71 then some prn                 -- PRN  = 0b01000111
  else if ir = 160 then some add                -- ADD  = 0b10100000
  else if ir = 161 then some subtract           -- SUB  = 0b10100001
  else if ir = 162 then some multiply           -- MUL  = 0b10100010
  else if ir = 69 then some push                -- PUSH = 0b01000101
  else if ir = 70 then some pop                 -- POP  = 0b01000110
  else if ir = 80 then some call                -- CALL = 0b01010000
  else if ir = 17 then some ret                 -- RET  = 0b00010001
  else if ir = 167 then some compare            -- CMP  = 0b10100111
  else if ir = 85 then some jump_if_equal       -- JEQ  = 0b01010101
  else if ir = 86 then some jump_if_not_equal   -- JNE  = 0b01010110
  else if ir = 84 then some jump                -- JMP  = 0b01010100
  else none

/-- One iteration of the `while self.running` body of `CPU.run`: fetch
the instruction byte and both candidate operand bytes, then dispatch. -/
def step (s : CPU) : Except Err CPU := do
  let ir ← ram_read s s.pc
  let operand_a ← ram_read s (s.pc + 1)
  let operand_b ← ram_read s (s.pc + 2)
  match branchtable ir with
  | some h => h s operand_a operand_b
  | none => .error .keyError

/-- At most `n` iterations of `CPU.run`'s loop. -/
def stepN : Nat → CPU → Except Err CPU
  | 0, s => .ok s
  | n + 1, s => if s.running then (step s).bind (stepN n) else .ok s

/-- Register lookup on a finished computation (for stating concrete
evaluations). -/
def regOf (e : Except Err CPU) (i : Int) : Option Int :=
  match e with
  | .ok s => pyGet s.reg i
  | .error _ => none

end cpu_additions

namespace cpu

/-- Python values passed as the `op` argument of `CPU.alu` in
`ls8/cpu.py`: the run loop passes strings, but `push`/`pop` pass the
numeric opcode constants `DEC`/`INC`.  Python's `==` between an int and
a string is `False`, which the catch-all branch of the match captures. -/
inductive AluOp where
  | str (s : String)
  | num (n : Int)
  deriving DecidableEq

/-- State of `CPU` from `ls8/cpu.py` (no compare flag exists there). -/
structure CPU where
  ram : List Int
  reg : List Int
  pc : Int
  sp : Int
  running : Bool
  deriving DecidableEq

/-- `CPU.__init__` of `ls8/cpu.py`. -/
def CPU.init : CPU :=
  { ram := List.replicate 256 0
    reg := List.replicate 8 0
    pc := 0
    sp := 7
    running := true }

/-- `CPU.ram_read`. -/
def ram_read (s : CPU) (address : Int) : Except Err Int :=
  match pyGet s.ram address with
  | some v => .ok v
  | none => .error .indexError

/-- `CPU.ram_write`. -/
def ram_write (s : CPU) (value address : Int) : Except Err CPU :=
  match pySet s.ram address value with
  | some m => .ok { s with ram := m }
  | none => .error .indexError

/-- A read `self.reg[i]`. -/
def reg_read (s : CPU) (i : Int) : Except Err Int :=
  match pyGet s.reg i with
  | some v => .ok v
  | none => .error .indexError

/-- A write `self.reg[i] = v`. -/
def reg_write (s : CPU) (i v : Int) : Except Err CPU :=
  match pySet s.reg i v with
  | some l => .ok { s with reg := l }
  | none => .error .indexError

/-- `CPU.alu` of `ls8/cpu.py`: register indices are NOT masked here;
only INC and DEC mask their result with `& LIM`.  An `op` that equals
none of the five strings falls through to
`raise Exception("Unsupported ALU operation")`. -/
def alu (s : CPU) (op : AluOp) (reg_a reg_b : Int) : Except Err CPU :=
  if op = .str "ADD" then do
    let x ← reg_read s reg_a
    let y ← reg_read s reg_b
    reg_write s reg_a (x + y)
  else if op = .str "SUB" then do
    let x ← reg_read s reg_a
    let y ← reg_read s reg_b
    reg_write s reg_a (x - y)
  else if op = .str "MUL" then do
    let x ← reg_read s reg_a
    let y ← reg_read s reg_b
    reg_write s reg_a (x * y)
  else if op = .str "INC" then do
    let x ← reg_read s reg_a
    reg_write s reg_a ((x + 1) % 256)
  else if op = .str "DEC" then do
    let x ← reg_read s reg_a
    reg_write s reg_a ((x - 1) % 256)
  else .error .unsupportedAlu

/-- `CPU.ldi` of `ls8/cpu.py`: masks index and value, no pc change. -/
def ldi (s : CPU) (reg val : Int) : Except Err CPU :=
  reg_write s (reg % 8) (val % 256)

/-- `CPU.push` of `ls8/cpu.py`.  Its first statement is
`self.alu(DEC, 7, 0)` — passing the numeric constant `DEC = 0b01100110`
(= 102), not the string `"DEC"`. -/
def push (s : CPU) (reg : Int) : Except Err CPU := do
  let s ← alu s (.num 102) 7 0
  let r := reg % 8
  let v ← reg_read s r
  let sp ← reg_read s 7
  ram_write s v sp

/-- `CPU.pop` of `ls8/cpu.py`.  Its last statement is
`self.alu(INC, 7, 0)` — passing the numeric constant `INC = 0b01100101`
(= 101), not the string `"INC"`. -/
def pop (s : CPU) (reg : Int) : Except Err CPU := do
  let r := reg % 8
  let sp ← reg_read s 7
  let v ← ram_read s sp
  let s ← ldi s r v
  alu s (.num 101) 7 0

/-- One iteration of the `while self.running` body of `CPU.run` in
`ls8/cpu.py`: an `if`/`elif` chain over the opcode.  The final `else`
only prints "Instruction not valid" — it neither stops the loop nor
moves the program counter, so the state is returned unchanged. -/
def step (s : CPU) : Except Err CPU := do
  let instruction_register ← ram_read s s.pc
  let operand_a ← ram_read s (s.pc + 1)
  let operand_b ← ram_read s (s.pc + 2)
  if instruction_register = 1 then            -- HLT
    .ok { s with running := false }
  else if instruction_register = 130 then do  -- LDI: unmasked direct write
    let s ← reg_write s operand_a operand_b
    .ok { s with pc := s.pc + 3 }
  else if instruction_register = 71 then do   -- PRN
    let _ ← reg_read s operand_a
    .ok { s with pc := s.pc + 2 }
  else if instruction_register = 160 then do  -- ADD
    let s ← alu s (.str "ADD") operand_a operand_b
    .ok { s with pc := s.pc + 3 }
  else if instruction_register = 161 then do  -- SUB
    let s ← alu s (.str "SUB") operand_a operand_b
    .ok { s with pc := s.pc + 3 }
  else if instruction_register = 162 then do  -- MUL
    let s ← alu s (.str "MUL") operand_a operand_b
    .ok { s with pc := s.pc + 3 }
  else if instruction_register = 69 then      -- PUSH
    push s operand_a
  else if instruction_register = 70 then      -- POP
    pop s operand_a
  else
    .ok s

/-- At most `n` iterations of `CPU.run`'s loop in `ls8/cpu.py`. -/
def stepN : Nat → CPU → Except Err CPU
  | 0, s => .ok s
  | n + 1, s => if s.running then (step s).bind (stepN n) else .ok s

end cpu

/-! ### Concrete machine states used by the claim theorems -/

/-- A `ls8/cpu.py` machine whose first instruction byte (99) is not a
recognized opcode. -/
def badOpcodeState : cpu.CPU :=
  { cpu.CPU.init with ram := 99 :: List.replicate 255 0 }

/-- A `ls8/cpu.py` machine whose first instruction is PUSH
(opcode `0b01000101` = 69). -/
def pushFirstState : cpu.CPU :=
  { cpu.CPU.init with ram := 69 :: List.replicate 255 0 }

/-- A freshly constructed `ls8/cpu_additions.py` machine loaded with
`LDI R0,255; LDI R1,1; ADD R0,R1; HLT`. -/
def addOverflowState : cpu_additions.CPU :=
  { cpu_additions.CPU.init with
    ram := [130, 0, 255, 130, 1, 1, 160, 0, 1, 1] ++ List.replicate 246 0 }

/-- A `ls8/cpu_additions.py` machine with `reg = [5,0,0,0,0,0,0,10]`. -/
def smallState : cpu_additions.CPU :=
  { cpu_additions.CPU.init with reg := [5, 0, 0, 0, 0, 0, 0, 10] }

/-- A `ls8/cpu_additions.py` machine whose last memory cell holds 99. -/
def highMemState : cpu_additions.CPU :=
  { cpu_additions.CPU.init with ram := List.replicate 255 0 ++ [99] }

theorem pyIdx_nonneg {n : Nat} {i : Int} (h0 : 0 ≤ i) (h1 : i < (n : Int)) :
    pyIdx n i = some i.toNat := by
  simp [pyIdx, h0, h1]

theorem pyIdx_neg {n : Nat} {i : Int} (h0 : i < 0) (h1 : 0 ≤ i + (n : Int)) :
    pyIdx n i = some (i + (n : Int)).toNat := by
  simp [pyIdx, not_le.mpr h0, h1]

theorem pyIdx_none_high {n : Nat} {i : Int} (h : (n : Int) ≤ i) :
    pyIdx n i = none := by
  have h0 : 0 ≤ i := le_trans (Int.natCast_nonneg n) h
  simp [pyIdx, h0, not_lt.mpr h]

theorem pyIdx_none_low {n : Nat} {i : Int} (h : i + (n : Int) < 0) :
    pyIdx n i = none := by
  have h0 : ¬ 0 ≤ i := by omega
  simp [pyIdx, h0, not_le.mpr h]

theorem pyIdx_lt {n : Nat} {i : Int} {j : Nat} (h : pyIdx n i = some j) : j < n := by
  unfold pyIdx at h
  split_ifs at h with h0 h1 h2 <;> simp_all <;> omega

theorem pyIdx_total {n : Nat} {i : Int} (h0 : -(n : Int) ≤ i) (h1 : i < (n : Int)) :
    ∃ j, pyIdx n i = some j := by
  rcases le_or_lt 0 i with h | h
  · exact ⟨_, pyIdx_nonneg h h1⟩
  · exact ⟨_, pyIdx_neg h (by omega)⟩

theorem pyGet_eq_of_idx {l : List Int} {i : Int} {j : Nat}
    (h : pyIdx l.length i = some j) : pyGet l i = l.get? j := by
  simp [pyGet, h]

theorem pyGet_none_of_idx {l : List Int} {i : Int}
    (h : pyIdx l.length i = none) : pyGet l i = none := by
  simp [pyGet, h]

theorem pySet_eq_of_idx {l : List Int} {i v : Int} {j : Nat}
    (h : pyIdx l.length i = some j) : pySet l i v = some (l.set j v) := by
  simp [pySet, h]

theorem pySet_none_of_idx {l : List Int} {i v : Int}
    (h : pyIdx l.length i = none) : pySet l i v = none := by
  simp [pySet, h]

theorem pyGet_total {l : List Int} {i : Int} {j : Nat}
    (h : pyIdx l.length i = some j) : ∃ v, pyGet l i = some v := by
  have hj := pyIdx_lt h
  rw [pyGet_eq_of_idx h]
  exact ⟨_, List.get?_eq_get hj⟩

theorem pyGet_set_self {l : List Int} {i v : Int} {j : Nat}
    (h : pyIdx l.length i = some j) : pyGet (l.set j v) i = some v := by
  have hj := pyIdx_lt h
  have h' : pyIdx (l.set j v).length i = some j := by rwa [List.length_set]
  rw [pyGet_eq_of_idx h', List.get?_set_eq_of_lt _ hj]

theorem pyGet_set_ne {l : List Int} {i v : Int} {j j' : Nat}
    (h : pyIdx l.length i = some j') (hne : j ≠ j') :
    pyGet (l.set j v) i = pyGet l i := by
  have h' : pyIdx (l.set j v).length i = some j' := by rwa [List.length_set]
  rw [pyGet_eq_of_idx h', pyGet_eq_of_idx h, List.get?_set_ne _ _ hne]

theorem ok_bind {α β : Type} (a : α) (f : α → Except Err β) :
    (Except.ok a : Except Err α) >>= f = f a := rfl

theorem error_bind {α β : Type} (e : Err) (f : α → Except Err β) :
    (Except.error e : Except Err α) >>= f = .error e := rfl

namespace cpu_additions

theorem reg_read_ok {s : CPU} {i v : Int} (h : pyGet s.reg i = some v) :
    reg_read s i = .ok v := by simp [reg_read, h]

theorem reg_write_ok {s : CPU} {i v : Int} {l : List Int} (h : pySet s.reg i v = some l) :
    reg_write s i v = .ok { s with reg := l } := by simp [reg_write, h]

theorem ram_read_ok {s : CPU} {i v : Int} (h : pyGet s.ram i = some v) :
    ram_read s i = .ok v := by simp [ram_read, h]

theorem ram_read_err {s : CPU} {i : Int} (h : pyGet s.ram i = none) :
    ram_read s i = .error .indexError := by simp [ram_read, h]

theorem ram_write_ok {s : CPU} {v i : Int} {m : List Int} (h : pySet s.ram i v = some m) :
    ram_write s v i = .ok { s with ram := m } := by simp [ram_write, h]

theorem ram_write_err {s : CPU} {v i : Int} (h : pySet s.ram i v = none) :
    ram_write s v i = .error .indexError := by simp [ram_write, h]

end cpu_additions

/-- C1.  On an unrecognized opcode, `ls8/cpu.py`'s run loop prints
"Instruction not valid" and leaves the whole state — including `running`
and `pc` — unchanged, so every further iteration refetches the same
byte: the engine repeats the fetch loop forever instead of failing with
`InvalidOpcode` and halting. -/
theorem C1_unknown_opcode_loops_forever :
    ∀ n : Nat, cpu.stepN n badOpcodeState = .ok badOpcodeState := by
  intro n
  induction n with
  | zero => rfl
  | succ k ih =>
    show (if badOpcodeState.running then
        (cpu.step badOpcodeState).bind (cpu.stepN k) else .ok badOpcodeState)
      = .ok badOpcodeState
    rw [if_pos (show badOpcodeState.running = true by decide),
      show cpu.step badOpcodeState = .ok badOpcodeState by decide]
    exact ih

/-- C2.  Registers are not confined to [0,255]: running
`LDI R0,255; LDI R1,1; ADD R0,R1` from a fresh `ls8/cpu_additions.py`
machine leaves `reg[0] = 256` (ADD does not reduce modulo 256), and a
PUSH from the initial state drives `reg[7]` (the stack pointer) to −1. -/
theorem C2_register_values_escape_byte_range :
    cpu_additions.regOf (cpu_additions.stepN 3 addOverflowState) 0 = some 256 ∧
    ¬ (256 : Int) ≤ 255 ∧
    cpu_additions.regOf
      (cpu_additions.push { cpu_additions.CPU.init with reg := [5, 0, 0, 0, 0, 0, 0, 0] } 0 0)
      7 = some (-1) := by
  refine ⟨by decide, by decide, by decide⟩

/-- C7.  In `ls8/cpu.py`, `push` and `pop` call `self.alu` with the
numeric opcode constants `DEC` (102) and `INC` (101) instead of the
strings `"DEC"`/`"INC"`, so the ALU's defensive branch IS reachable from
the dispatcher: every PUSH raises "Unsupported ALU operation", as does
the `alu` call made by every POP. -/
theorem C7_alu_defensive_branch_reachable :
    cpu.step pushFirstState = .error .unsupportedAlu ∧
    (∀ (s : cpu.CPU) (a : Int), cpu.push s a = .error .unsupportedAlu) ∧
    (∀ (s : cpu.CPU), cpu.alu s (.num 102) 7 0 = .error .unsupportedAlu) ∧
    (∀ (s : cpu.CPU), cpu.alu s (.num 101) 7 0 = .error .unsupportedAlu) := by
  refine ⟨by decide, fun s a => rfl, fun s => rfl, fun s => rfl⟩

/-- C10.  `CPU.__init__` of `ls8/cpu_additions.py` never assigns
`self.flag`, and both conditional jumps read it first: executed before
any CMP they raise `AttributeError` instead of branching or falling
through. -/
theorem C10_conditional_jump_before_cmp_fails (s : cpu_additions.CPU) (a b : Int)
    (hflag : s.flag = none) :
    cpu_additions.jump_if_equal s a b = .error .attributeError ∧
    cpu_additions.jump_if_not_equal s a b = .error .attributeError ∧
    cpu_additions.CPU.init.flag = none := by
  refine ⟨?_, ?_, rfl⟩
  · unfold cpu_additions.jump_if_equal
    rw [hflag]
  · unfold cpu_additions.jump_if_not_equal
    rw [hflag]

/-- Witness for C10 at the freshly constructed machine. -/
theorem C10_conditional_jump_before_cmp_fails_witness :
    cpu_additions.jump_if_equal cpu_additions.CPU.init 0 0 = .error .attributeError ∧
    cpu_additions.jump_if_not_equal cpu_additions.CPU.init 0 0 = .error .attributeError ∧
    cpu_additions.CPU.init.flag = none :=
  C10_conditional_jump_before_cmp_fails cpu_additions.CPU.init 0 0 rfl

/-- C4 counterexample.  PUSH(0) then POP(7) from
`reg = [5,0,0,0,0,0,0,10]`: the claim says the stack pointer (register
7) ends equal to its pre-PUSH value 10, but it ends at 6 (POP with
operand 7 overwrites the stack pointer with the popped value 5 and then
increments it). -/
theorem C4_counterexample_pop_into_sp :
    cpu_additions.regOf
      ((cpu_additions.push smallState 0 0).bind fun t => cpu_additions.pop t 7 0) 7
      ≠ some 10 := by decide

/-- C8 counterexample.  `ram_read` at address −1 on a machine whose cell
255 holds 99: the claim says a negative address fails fast and never
silently wraps to high memory, but the read succeeds and returns cell
255's contents. -/
theorem C8_counterexample_negative_address_wraps :
    cpu_additions.ram_read highMemState (-1) = .ok 99 := by decide

/-- C9 counterexample.  With the program counter at the valid address
255, the unconditional pre-fetch of the byte at `pc + 1 = 256` raises
`IndexError`, so the fetch loop fails before dispatch even though
address 255 could hold a zero-operand instruction such as HLT. -/
theorem C9_counterexample_prefetch_fails_at_255 :
    cpu_additions.ram_read { cpu_additions.CPU.init with pc := 255 } (255 + 1)
      = .error .indexError ∧
    cpu_additions.step { cpu_additions.CPU.init with pc := 255, ram := (List.replicate 255 0) ++ [1] }
      = .error .indexError := by
  refine ⟨by decide, by decide⟩

/-- C8 (amended).  `ram_read`/`ram_write` follow Python list indexing:
an address below −256 or above 255 raises `IndexError` (fail-fast,
though as a generic `IndexError`, not a dedicated `AddressOutOfRange`),
while a negative address in [−256,−1] silently aliases onto address
`addr + 256` — high memory — instead of failing. -/
theorem C8_amended_address_semantics (s : cpu_additions.CPU) (addr : Int)
    (hram : s.ram.length = 256) :
    ((addr < -256 ∨ 256 ≤ addr) →
      cpu_additions.ram_read s addr = .error .indexError ∧
      ∀ v, cpu_additions.ram_write s v addr = .error .indexError) ∧
    (-256 ≤ addr → addr < 0 →
      cpu_additions.ram_read s addr = cpu_additions.ram_read s (addr + 256) ∧
      ∀ v, cpu_additions.ram_write s v addr = cpu_additions.ram_write s v (addr + 256)) := by
  constructor
  · intro h
    have hidx : pyIdx s.ram.length addr = none := by
      rw [hram]
      rcases h with h | h
      · exact pyIdx_none_low (by omega)
      · exact pyIdx_none_high (by omega)
    exact ⟨cpu_additions.ram_read_err (pyGet_none_of_idx hidx),
      fun v => cpu_additions.ram_write_err (pySet_none_of_idx hidx)⟩
  · intro h0 h1
    have hneg : pyIdx s.ram.length addr = some (addr + 256).toNat := by
      rw [hram]
      have := pyIdx_neg (n := 256) (i := addr) h1 (by omega)
      simpa using this
    have hpos : pyIdx s.ram.length (addr + 256) = some (addr + 256).toNat := by
      rw [hram]
      have := pyIdx_nonneg (n := 256) (i := addr + 256) (by omega) (by omega)
      simpa using this
    constructor
    · unfold cpu_additions.ram_read
      rw [pyGet_eq_of_idx hneg, pyGet_eq_of_idx hpos]
    · intro v
      unfold cpu_additions.ram_write
      rw [pySet_eq_of_idx hneg, pySet_eq_of_idx hpos]

/-- Witness for C8 (amended) at address −1 on `highMemState`. -/
theorem C8_amended_address_semantics_witness :
    (((-1 : Int) < -256 ∨ 256 ≤ (-1 : Int)) →
      cpu_additions.ram_read highMemState (-1) = .error .indexError ∧
      ∀ v, cpu_additions.ram_write highMemState v (-1) = .error .indexError) ∧
    (-256 ≤ (-1 : Int) → (-1 : Int) < 0 →
      cpu_additions.ram_read highMemState (-1) = cpu_additions.ram_read highMemState (-1 + 256) ∧
      ∀ v, cpu_additions.ram_write highMemState v (-1)
        = cpu_additions.ram_write highMemState v (-1 + 256)) :=
  C8_amended_address_semantics highMemState (-1) (by decide)

/-- C9 (amended).  The unconditional pre-fetch of two candidate operand
bytes succeeds (and is harmless) only while `pc ≤ 253`; at `pc = 254` or
`pc = 255` — both valid memory addresses the engine can reach — the
fetch loop raises `IndexError` before dispatch, regardless of the
fetched instruction's declared operand count. -/
theorem C9_amended_prefetch (s : cpu_additions.CPU) (hram : s.ram.length = 256) :
    (0 ≤ s.pc → s.pc ≤ 253 →
      ∃ ir a b, cpu_additions.ram_read s s.pc = .ok ir ∧
        cpu_additions.ram_read s (s.pc + 1) = .ok a ∧
        cpu_additions.ram_read s (s.pc + 2) = .ok b) ∧
    ((s.pc = 254 ∨ s.pc = 255) → cpu_additions.step s = .error .indexError) := by
  constructor
  · intro h0 h1
    have get1 : ∃ v, pyGet s.ram s.pc = some v :=
      pyGet_total (by rw [hram]; exact pyIdx_nonneg h0 (by omega))
    have get2 : ∃ v, pyGet s.ram (s.pc + 1) = some v :=
      pyGet_total (by rw [hram]; exact pyIdx_nonneg (by omega) (by omega))
    have get3 : ∃ v, pyGet s.ram (s.pc + 2) = some v :=
      pyGet_total (by rw [hram]; exact pyIdx_nonneg (by omega) (by omega))
    obtain ⟨ir, hir⟩ := get1
    obtain ⟨a, ha⟩ := get2
    obtain ⟨b, hb⟩ := get3
    exact ⟨ir, a, b, cpu_additions.ram_read_ok hir, cpu_additions.ram_read_ok ha,
      cpu_additions.ram_read_ok hb⟩
  · intro h
    have hpc0 : 0 ≤ s.pc := by omega
    have hout : cpu_additions.ram_read s 256 = .error .indexError :=
      cpu_additions.ram_read_err (pyGet_none_of_idx (by
        rw [hram]; exact pyIdx_none_high (by omega)))
    obtain ⟨ir, hir⟩ : ∃ v, pyGet s.ram s.pc = some v :=
      pyGet_total (by rw [hram]; exact pyIdx_nonneg hpc0 (by omega))
    rcases h with h | h
    · obtain ⟨a, ha⟩ : ∃ v, pyGet s.ram (s.pc + 1) = some v :=
        pyGet_total (by rw [hram]; exact pyIdx_nonneg (by omega) (by omega))
      have h2 : s.pc + 2 = 256 := by omega
      simp only [cpu_additions.step, cpu_additions.ram_read_ok hir, ok_bind,
        cpu_additions.ram_read_ok ha, h2, hout, error_bind]
    · have h1 : s.pc + 1 = 256 := by omega
      simp only [cpu_additions.step, cpu_additions.ram_read_ok hir, ok_bind, h1, hout,
        error_bind]

/-- Witness for C9 (amended) on the freshly constructed machine. -/
theorem C9_amended_prefetch_witness :
    (0 ≤ cpu_additions.CPU.init.pc → cpu_additions.CPU.init.pc ≤ 253 →
      ∃ ir a b, cpu_additions.ram_read cpu_additions.CPU.init cpu_additions.CPU.init.pc = .ok ir ∧
        cpu_additions.ram_read cpu_additions.CPU.init (cpu_additions.CPU.init.pc + 1) = .ok a ∧
        cpu_additions.ram_read cpu_additions.CPU.init (cpu_additions.CPU.init.pc + 2) = .ok b) ∧
    ((cpu_additions.CPU.init.pc = 254 ∨ cpu_additions.CPU.init.pc = 255) →
      cpu_additions.step cpu_additions.CPU.init = .error .indexError) :=
  C9_amended_prefetch cpu_additions.CPU.init (by decide)

namespace cpu_additions

theorem alu_CMP_eq (s : CPU) (a b : Int) : alu s "CMP" a b = (do
    let x ← reg_read s (a % 8)
    let y ← reg_read s (b % 8)
    if x = y then .ok { s with flag := some 1 }
    else if x < y then .ok { s with flag := some 4 }
    else .ok { s with flag := some 2 }) := rfl

end cpu_additions

/-- C6.  CMP masks both indices and then sets the flag to 1 (`HLT`,
EQUAL) exactly when the two register values are equal, to 4
(`0b00000100`, LESS_THAN) exactly when the first is smaller, and to 2
(`0b00000010`, GREATER_THAN) exactly when it is larger; with the flag
set, JEQ jumps to `reg[j]` exactly when the flag is EQUAL and otherwise
advances the program counter by 2, and JNE does the reverse. -/
theorem C6_cmp_flag_and_conditional_jumps (s : cpu_additions.CPU) (a b ra rb : Int)
    (hreg : s.reg.length = 8)
    (ha : pyGet s.reg (a % 8) = some ra)
    (hb : pyGet s.reg (b % 8) = some rb) :
    (∃ s', cpu_additions.compare s a b = .ok s' ∧
      ((s'.flag = some 1) ↔ ra = rb) ∧
      ((s'.flag = some 4) ↔ ra < rb) ∧
      ((s'.flag = some 2) ↔ rb < ra)) ∧
    (∀ (t : cpu_additions.CPU) (j v : Int), t.flag = some 1 → pyGet t.reg j = some v →
      cpu_additions.jump_if_equal t j 0 = .ok { t with pc := v }) ∧
    (∀ (t : cpu_additions.CPU) (j f : Int), t.flag = some f → f ≠ 1 →
      cpu_additions.jump_if_equal t j 0 = .ok { t with pc := t.pc + 2 }) ∧
    (∀ (t : cpu_additions.CPU) (j v f : Int), t.flag = some f → f ≠ 1 →
      pyGet t.reg j = some v →
      cpu_additions.jump_if_not_equal t j 0 = .ok { t with pc := v }) ∧
    (∀ (t : cpu_additions.CPU) (j : Int), t.flag = some 1 →
      cpu_additions.jump_if_not_equal t j 0 = .ok { t with pc := t.pc + 2 }) := by
  refine ⟨?_, ?_, ?_, ?_, ?_⟩
  · rcases lt_trichotomy ra rb with h | h | h
    · refine ⟨{ s with flag := some 4, pc := s.pc + 3 }, ?_, ?_, ?_, ?_⟩
      · simp only [cpu_additions.compare, cpu_additions.alu_CMP_eq,
          cpu_additions.reg_read_ok ha, ok_bind, cpu_additions.reg_read_ok hb]
        rw [if_neg (by omega : ¬ ra = rb), if_pos h]
        rfl
      all_goals simp only [Option.some.injEq]
      all_goals constructor <;> intro h2 <;> first | trivial | omega
    · refine ⟨{ s with flag := some 1, pc := s.pc + 3 }, ?_, ?_, ?_, ?_⟩
      · simp only [cpu_additions.compare, cpu_additions.alu_CMP_eq,
          cpu_additions.reg_read_ok ha, ok_bind, cpu_additions.reg_read_ok hb]
        rw [if_pos h]
        rfl
      all_goals simp only [Option.some.injEq]
      all_goals constructor <;> intro h2 <;> first | trivial | omega
    · refine ⟨{ s with flag := some 2, pc := s.pc + 3 }, ?_, ?_, ?_, ?_⟩
      · simp only [cpu_additions.compare, cpu_additions.alu_CMP_eq,
          cpu_additions.reg_read_ok ha, ok_bind, cpu_additions.reg_read_ok hb]
        rw [if_neg (by omega : ¬ ra = rb), if_neg (by omega : ¬ ra < rb)]
        rfl
      all_goals simp only [Option.some.injEq]
      all_goals constructor <;> intro h2 <;> first | trivial | omega
  · intro t j v hflag hv
    simp [cpu_additions.jump_if_equal, hflag, cpu_additions.reg_read_ok hv, ok_bind]
  · intro t j f hflag hne
    simp [cpu_additions.jump_if_equal, hflag, if_neg hne]
  · intro t j v f hflag hne hv
    simp [cpu_additions.jump_if_not_equal, hflag, if_pos hne,
      cpu_additions.reg_read_ok hv, ok_bind]
  · intro t j hflag
    simp [cpu_additions.jump_if_not_equal, hflag]

/-- Witness for C6 with `reg = [5,0,...,0,10]`, comparing registers 0
and 7 (5 < 10). -/
theorem C6_cmp_flag_and_conditional_jumps_witness :
    (∃ s', cpu_additions.compare smallState 0 7 = .ok s' ∧
      ((s'.flag = some 1) ↔ (5 : Int) = 10) ∧
      ((s'.flag = some 4) ↔ (5 : Int) < 10) ∧
      ((s'.flag = some 2) ↔ (10 : Int) < 5)) ∧
    (∀ (t : cpu_additions.CPU) (j v : Int), t.flag = some 1 → pyGet t.reg j = some v →
      cpu_additions.jump_if_equal t j 0 = .ok { t with pc := v }) ∧
    (∀ (t : cpu_additions.CPU) (j f : Int), t.flag = some f → f ≠ 1 →
      cpu_additions.jump_if_equal t j 0 = .ok { t with pc := t.pc + 2 }) ∧
    (∀ (t : cpu_additions.CPU) (j v f : Int), t.flag = some f → f ≠ 1 →
      pyGet t.reg j = some v →
      cpu_additions.jump_if_not_equal t j 0 = .ok { t with pc := v }) ∧
    (∀ (t : cpu_additions.CPU) (j : Int), t.flag = some 1 →
      cpu_additions.jump_if_not_equal t j 0 = .ok { t with pc := t.pc + 2 }) :=
  C6_cmp_flag_and_conditional_jumps smallState 0 7 5 10 (by decide) (by decide) (by decide)

/-- C4 (amended).  PUSH(r) immediately followed by POP(r') restores the
stack pointer (register 7) and transfers the pushed value into `reg[r']`
for register indices in [0,7] — provided neither operand is 7 itself
(POP(7) overwrites the stack pointer with the popped value before the
increment, and PUSH(7) stores the already-decremented stack pointer) and
the decremented stack pointer is a valid Python index of the 256-cell
memory. -/
theorem C4_amended_push_pop_roundtrip (s : cpu_additions.CPU) (r r' sp0 vr : Int)
    (hsp : s.sp = 7) (hreg : s.reg.length = 8) (hram : s.ram.length = 256)
    (hr0 : 0 ≤ r) (hr8 : r < 8) (hr7 : r ≠ 7)
    (hr'0 : 0 ≤ r') (hr'8 : r' < 8) (hr'7 : r' ≠ 7)
    (hsp0 : pyGet s.reg 7 = some sp0)
    (hvr : pyGet s.reg r = some vr)
    (hlo : -256 ≤ sp0 - 1) (hhi : sp0 - 1 < 256) :
    ∃ s1 s2, cpu_additions.push s r 0 = .ok s1 ∧
      cpu_additions.pop s1 r' 0 = .ok s2 ∧
      pyGet s2.reg 7 = some sp0 ∧
      pyGet s2.reg r' = some vr := by
  have hi7 : pyIdx s.reg.length 7 = some 7 := by rw [hreg]; decide
  have hir : pyIdx s.reg.length r = some r.toNat := by
    rw [hreg]; exact pyIdx_nonneg hr0 (by omega)
  obtain ⟨k, hk⟩ : ∃ k, pyIdx s.ram.length (sp0 - 1) = some k := by
    rw [hram]; exact pyIdx_total (by omega) (by omega)
  have hL1len : (s.reg.set 7 (sp0 - 1)).length = 8 := by rw [List.length_set, hreg]
  have hL1r : pyGet (s.reg.set 7 (sp0 - 1)) r = some vr := by
    rw [pyGet_set_ne hir (by omega)]; exact hvr
  have hL1sp : pyGet (s.reg.set 7 (sp0 - 1)) 7 = some (sp0 - 1) := pyGet_set_self hi7
  have e1 : cpu_additions.reg_read s 7 = .ok sp0 := cpu_additions.reg_read_ok hsp0
  have e2 : cpu_additions.reg_write s 7 (sp0 - 1)
      = .ok { s with reg := s.reg.set 7 (sp0 - 1) } :=
    cpu_additions.reg_write_ok (pySet_eq_of_idx hi7)
  have e3 : cpu_additions.reg_read
      { ram := s.ram, reg := s.reg.set 7 (sp0 - 1), pc := s.pc, sp := 7,
        running := s.running, flag := s.flag } r = .ok vr :=
    cpu_additions.reg_read_ok hL1r
  have e4 : cpu_additions.reg_read
      { ram := s.ram, reg := s.reg.set 7 (sp0 - 1), pc := s.pc, sp := 7,
        running := s.running, flag := s.flag } 7 = .ok (sp0 - 1) :=
    cpu_additions.reg_read_ok hL1sp
  have e5 : cpu_additions.ram_write
      { ram := s.ram, reg := s.reg.set 7 (sp0 - 1), pc := s.pc, sp := 7,
        running := s.running, flag := s.flag } vr (sp0 - 1)
      = .ok
        { ram := s.ram.set k vr, reg := s.reg.set 7 (sp0 - 1), pc := s.pc, sp := 7,
          running := s.running, flag := s.flag } :=
    cpu_additions.ram_write_ok (pySet_eq_of_idx hk)
  have hpush : cpu_additions.push s r 0
      = .ok
        { ram := s.ram.set k vr, reg := s.reg.set 7 (sp0 - 1), pc := s.pc + 2, sp := 7,
          running := s.running, flag := s.flag } := by
    simp only [cpu_additions.push, hsp, e1, ok_bind, e2, e3, e4, e5]
  have hiL1r' : pyIdx (s.reg.set 7 (sp0 - 1)).length r' = some r'.toNat := by
    rw [hL1len]; exact pyIdx_nonneg hr'0 (by omega)
  have hiL1_7 : pyIdx (s.reg.set 7 (sp0 - 1)).length 7 = some 7 := by
    rw [hL1len]; decide
  have hL2len : ((s.reg.set 7 (sp0 - 1)).set r'.toNat vr).length = 8 := by
    rw [List.length_set, hL1len]
  have hiL2_7 : pyIdx ((s.reg.set 7 (sp0 - 1)).set r'.toNat vr).length 7 = some 7 := by
    rw [hL2len]; decide
  have hiL2r' : pyIdx ((s.reg.set 7 (sp0 - 1)).set r'.toNat vr).length r' = some r'.toNat := by
    rw [hL2len]; exact pyIdx_nonneg hr'0 (by omega)
  have hL2sp : pyGet ((s.reg.set 7 (sp0 - 1)).set r'.toNat vr) 7 = some (sp0 - 1) := by
    rw [pyGet_set_ne hiL1_7 (by omega)]; exact hL1sp
  have f1 : cpu_additions.reg_read
      { ram := s.ram.set k vr, reg := s.reg.set 7 (sp0 - 1), pc := s.pc + 2, sp := 7,
        running := s.running, flag := s.flag } 7 = .ok (sp0 - 1) :=
    cpu_additions.reg_read_ok hL1sp
  have f2 : cpu_additions.ram_read
      { ram := s.ram.set k vr, reg := s.reg.set 7 (sp0 - 1), pc := s.pc + 2, sp := 7,
        running := s.running, flag := s.flag } (sp0 - 1) = .ok vr :=
    cpu_additions.ram_read_ok (pyGet_set_self hk)
  have f3 : cpu_additions.reg_write
      { ram := s.ram.set k vr, reg := s.reg.set 7 (sp0 - 1), pc := s.pc + 2, sp := 7,
        running := s.running, flag := s.flag } r' vr
      = .ok
        { ram := s.ram.set k vr, reg := (s.reg.set 7 (sp0 - 1)).set r'.toNat vr,
          pc := s.pc + 2, sp := 7, running := s.running, flag := s.flag } :=
    cpu_additions.reg_write_ok (pySet_eq_of_idx hiL1r')
  have f4 : cpu_additions.reg_read
      { ram := s.ram.set k vr, reg := (s.reg.set 7 (sp0 - 1)).set r'.toNat vr,
        pc := s.pc + 2, sp := 7, running := s.running, flag := s.flag } 7
      = .ok (sp0 - 1) :=
    cpu_additions.reg_read_ok hL2sp
  have f5 : cpu_additions.reg_write
      { ram := s.ram.set k vr, reg := (s.reg.set 7 (sp0 - 1)).set r'.toNat vr,
        pc := s.pc + 2, sp := 7, running := s.running, flag := s.flag } 7 (sp0 - 1 + 1)
      = .ok
        { ram := s.ram.set k vr,
          reg := ((s.reg.set 7 (sp0 - 1)).set r'.toNat vr).set 7 (sp0 - 1 + 1),
          pc := s.pc + 2, sp := 7, running := s.running, flag := s.flag } :=
    cpu_additions.reg_write_ok (pySet_eq_of_idx hiL2_7)
  have hpop : cpu_additions.pop
      { ram := s.ram.set k vr, reg := s.reg.set 7 (sp0 - 1), pc := s.pc + 2, sp := 7,
        running := s.running, flag := s.flag } r' 0
      = .ok
        { ram := s.ram.set k vr,
          reg := ((s.reg.set 7 (sp0 - 1)).set r'.toNat vr).set 7 (sp0 - 1 + 1),
          pc := s.pc + 2 + 2, sp := 7, running := s.running, flag := s.flag } := by
    simp only [cpu_additions.pop, f1, ok_bind, f2, f3, f4, f5]
  refine ⟨_, _, hpush, hpop, ?_, ?_⟩
  · show pyGet (((s.reg.set 7 (sp0 - 1)).set r'.toNat vr).set 7 (sp0 - 1 + 1)) 7 = some sp0
    rw [pyGet_set_self (v := sp0 - 1 + 1) hiL2_7]
    norm_num
  · show pyGet (((s.reg.set 7 (sp0 - 1)).set r'.toNat vr).set 7 (sp0 - 1 + 1)) r' = some vr
    rw [pyGet_set_ne hiL2r' (by omega)]
    exact pyGet_set_self hiL1r'

/-- Witness for C4 (amended): PUSH(0) then POP(1) from
`reg = [5,0,0,0,0,0,0,10]`. -/
theorem C4_amended_push_pop_roundtrip_witness :
    ∃ s1 s2, cpu_additions.push smallState 0 0 = .ok s1 ∧
      cpu_additions.pop s1 1 0 = .ok s2 ∧
      pyGet s2.reg 7 = some 10 ∧
      pyGet s2.reg 1 = some 5 :=
  C4_amended_push_pop_roundtrip smallState 0 1 10 5 (by decide) (by decide) (by decide)
    (by decide) (by decide) (by decide) (by decide) (by decide) (by decide) (by decide)
    (by decide) (by decide) (by decide)

/-- C5.  CALL(r) writes the return address `pc + 2` (the byte right
after the one-operand CALL) at the decremented stack pointer and loads
the PC from register r (for r ≠ 7 this is the register's pre-CALL
value; the operand is read after the stack-pointer decrement, exactly as
in the source).  From any later state whose stack pointer equals the
post-CALL value and whose addressed stack slot still holds that return
address, RET sets the PC to `pc + 2` and restores the stack pointer to
its pre-CALL value. -/
theorem C5_call_ret_return_address (s : cpu_additions.CPU) (r sp0 : Int)
    (hsp : s.sp = 7) (hreg : s.reg.length = 8) (hram : s.ram.length = 256)
    (hr0 : 0 ≤ r) (hr8 : r < 8)
    (hsp0 : pyGet s.reg 7 = some sp0)
    (hlo : -256 ≤ sp0 - 1) (hhi : sp0 - 1 < 256) :
    ∃ s1, cpu_additions.call s r 0 = .ok s1 ∧
      pyGet s1.ram (sp0 - 1) = some (s.pc + 2) ∧
      pyGet s1.reg 7 = some (sp0 - 1) ∧
      (∀ vr, r ≠ 7 → pyGet s.reg r = some vr → s1.pc = vr) ∧
      (∀ t : cpu_additions.CPU, t.sp = 7 → t.reg.length = 8 →
        pyGet t.reg 7 = some (sp0 - 1) →
        pyGet t.ram (sp0 - 1) = some (s.pc + 2) →
        ∃ t2, cpu_additions.ret t 0 0 = .ok t2 ∧
          t2.pc = s.pc + 2 ∧ pyGet t2.reg 7 = some sp0) := by
  have hi7 : pyIdx s.reg.length 7 = some 7 := by rw [hreg]; decide
  have hir : pyIdx s.reg.length r = some r.toNat := by
    rw [hreg]; exact pyIdx_nonneg hr0 (by omega)
  obtain ⟨k, hk⟩ : ∃ k, pyIdx s.ram.length (sp0 - 1) = some k := by
    rw [hram]; exact pyIdx_total (by omega) (by omega)
  have hL1len : (s.reg.set 7 (sp0 - 1)).length = 8 := by rw [List.length_set, hreg]
  have hiL1r : pyIdx (s.reg.set 7 (sp0 - 1)).length r = some r.toNat := by
    rw [hL1len]; exact pyIdx_nonneg hr0 (by omega)
  have hL1sp : pyGet (s.reg.set 7 (sp0 - 1)) 7 = some (sp0 - 1) := pyGet_set_self hi7
  obtain ⟨vcur, hvcur⟩ : ∃ v, pyGet (s.reg.set 7 (sp0 - 1)) r = some v := pyGet_total hiL1r
  have e1 : cpu_additions.reg_read s 7 = .ok sp0 := cpu_additions.reg_read_ok hsp0
  have e2 : cpu_additions.reg_write s 7 (sp0 - 1)
      = .ok { s with reg := s.reg.set 7 (sp0 - 1) } :=
    cpu_additions.reg_write_ok (pySet_eq_of_idx hi7)
  have e3 : cpu_additions.reg_read
      { ram := s.ram, reg := s.reg.set 7 (sp0 - 1), pc := s.pc, sp := 7,
        running := s.running, flag := s.flag } 7 = .ok (sp0 - 1) :=
    cpu_additions.reg_read_ok hL1sp
  have e4 : cpu_additions.ram_write
      { ram := s.ram, reg := s.reg.set 7 (sp0 - 1), pc := s.pc, sp := 7,
        running := s.running, flag := s.flag } (s.pc + 2) (sp0 - 1)
      = .ok
        { ram := s.ram.set k (s.pc + 2), reg := s.reg.set 7 (sp0 - 1), pc := s.pc, sp := 7,
          running := s.running, flag := s.flag } :=
    cpu_additions.ram_write_ok (pySet_eq_of_idx hk)
  have e5 : cpu_additions.reg_read
      { ram := s.ram.set k (s.pc + 2), reg := s.reg.set 7 (sp0 - 1), pc := s.pc, sp := 7,
        running := s.running, flag := s.flag } r = .ok vcur :=
    cpu_additions.reg_read_ok hvcur
  have hcall : cpu_additions.call s r 0
      = .ok
        { ram := s.ram.set k (s.pc + 2), reg := s.reg.set 7 (sp0 - 1), pc := vcur, sp := 7,
          running := s.running, flag := s.flag } := by
    simp only [cpu_additions.call, hsp, e1, ok_bind, e2, e3, e4, e5]
  refine ⟨_, hcall, ?_, ?_, ?_, ?_⟩
  · show pyGet (s.ram.set k (s.pc + 2)) (sp0 - 1) = some (s.pc + 2)
    exact pyGet_set_self hk
  · exact hL1sp
  · intro vr hr7 hvr
    show vcur = vr
    have : pyGet (s.reg.set 7 (sp0 - 1)) r = some vr := by
      rw [pyGet_set_ne hir (by omega)]; exact hvr
    have := hvcur.symm.trans this
    exact Option.some.inj this
  · intro t htsp htlen ht7 htram
    have hti7 : pyIdx t.reg.length 7 = some 7 := by rw [htlen]; decide
    have g1 : cpu_additions.reg_read t 7 = .ok (sp0 - 1) := cpu_additions.reg_read_ok ht7
    have g2 : cpu_additions.ram_read t (sp0 - 1) = .ok (s.pc + 2) :=
      cpu_additions.ram_read_ok htram
    have g3 : cpu_additions.reg_read
        { ram := t.ram, reg := t.reg, pc := s.pc + 2, sp := 7,
          running := t.running, flag := t.flag } 7 = .ok (sp0 - 1) :=
      cpu_additions.reg_read_ok ht7
    have g4 : cpu_additions.reg_write
        { ram := t.ram, reg := t.reg, pc := s.pc + 2, sp := 7,
          running := t.running, flag := t.flag } 7 (sp0 - 1 + 1)
        = .ok
          { ram := t.ram, reg := t.reg.set 7 (sp0 - 1 + 1), pc := s.pc + 2, sp := 7,
            running := t.running, flag := t.flag } :=
      cpu_additions.reg_write_ok (pySet_eq_of_idx hti7)
    have hret : cpu_additions.ret t 0 0
        = .ok
          { ram := t.ram, reg := t.reg.set 7 (sp0 - 1 + 1), pc := s.pc + 2, sp := 7,
            running := t.running, flag := t.flag } := by
      simp only [cpu_additions.ret, htsp, g1, ok_bind, g2, g3, g4]
    refine ⟨_, hret, rfl, ?_⟩
    show pyGet (t.reg.set 7 (sp0 - 1 + 1)) 7 = some sp0
    rw [pyGet_set_self (v := sp0 - 1 + 1) hti7]
    norm_num

/-- Witness for C5 with `reg = [50,0,0,0,0,0,0,10]` at `pc = 0`:
CALL(0) stores 2 at cell 9 and jumps to 50; a RET from the post-CALL
state returns the PC to 2 and the stack pointer to 10. -/
theorem C5_call_ret_return_address_witness :
    ∃ s1, cpu_additions.call
        { cpu_additions.CPU.init with reg := [50, 0, 0, 0, 0, 0, 0, 10] } 0 0 = .ok s1 ∧
      pyGet s1.ram (10 - 1) = some (0 + 2) ∧
      pyGet s1.reg 7 = some (10 - 1) ∧
      (∀ vr, (0 : Int) ≠ 7 →
        pyGet ({ cpu_additions.CPU.init with reg := [50, 0, 0, 0, 0, 0, 0, 10] } :
          cpu_additions.CPU).reg 0 = some vr → s1.pc = vr) ∧
      (∀ t : cpu_additions.CPU, t.sp = 7 → t.reg.length = 8 →
        pyGet t.reg 7 = some (10 - 1) →
        pyGet t.ram (10 - 1) = some (0 + 2) →
        ∃ t2, cpu_additions.ret t 0 0 = .ok t2 ∧
          t2.pc = 0 + 2 ∧ pyGet t2.reg 7 = some 10) :=
  C5_call_ret_return_address
    { cpu_additions.CPU.init with reg := [50, 0, 0, 0, 0, 0, 0, 10] } 0 10
    (by decide) (by decide) (by decide) (by decide) (by decide) (by decide) (by decide)
    (by decide)
